import Mathlib

/-!
# Shallow embedding of `player_module.py` (Space Invaders entities)

The Python module defines four sprite classes: `Player`, `Bullet`, `Wall`,
`Enemy`.  The module body appears twice in the file; at import time the second
set of definitions shadows the first, so the effective classes are the ones in
the second half (Player without `heal`, Wall with `health = 25` in the
constructor and `health = 10` in `reset`).  The `heal` method exists only in
the first (shadowed) `Player` class; we embed it from those lines since the
claims refer to it.

Pygame rects are modelled by their top-left corner `(x, y)` and size `(w, h)`,
all integer-valued: `rect.left = x`, `rect.right = x + w`, `rect.top = y`,
`rect.bottom = y + h`, `rect.center = (x + w/2, y + h/2)` (integer division,
widths and heights are naturals).  `rect.center = (cx, cy)` assigns
`x := cx - w/2`, `y := cy - h/2`.  Image surfaces are not modelled beyond
their sizes; where a bullet swaps to an explosion image, the (unknown)
explosion-image size is passed as a parameter.  `Sprite.kill()` (removal from
all live groups) is modelled by an `alive` flag set to `false`.
-/

namespace SpaceInvaders

/-- `SCREEN_WIDTH, SCREEN_HEIGHT = 800, 600` (module constants). -/
def SCREEN_WIDTH : Int := 800

/-- `SCREEN_WIDTH, SCREEN_HEIGHT = 800, 600` (module constants). -/
def SCREEN_HEIGHT : Int := 600

/-- State of a `Bullet` sprite: rect (top-left `x`,`y`, size `w`,`h`),
animation/explosion counters, and liveness. -/
structure Bullet where
  is_enemy : Bool
  x : Int
  y : Int
  w : Nat
  h : Nat
  image_index : Nat
  speed : Int
  exploding : Bool
  explosion_index : Nat
  explosion_timer : Nat
  alive : Bool
  deriving DecidableEq, Repr

/-- `Bullet.__init__(x, y, is_enemy)`: rect centered at `(x, y)` (bullet image
size `wb × hb`), `speed = 5` for enemy bullets and `-5` for player bullets,
all counters zero, not exploding. -/
def mkBullet (wb hb : Nat) (x y : Int) (is_enemy : Bool) : Bullet :=
  { is_enemy := is_enemy
    x := x - (wb / 2 : Nat)
    y := y - (hb / 2 : Nat)
    w := wb
    h := hb
    image_index := 0
    speed := if is_enemy then 5 else -5
    exploding := false
    explosion_index := 0
    explosion_timer := 0
    alive := true }

/-- `Bullet.trigger_explosion`: sets `exploding`, swaps the image for the
first explosion frame and recenters the rect on the old center (`we × he` is
the explosion image size). -/
def Bullet.trigger_explosion (we he : Nat) (b : Bullet) : Bullet :=
  { b with
    exploding := true
    x := b.x + (b.w / 2 : Nat) - (we / 2 : Nat)
    y := b.y + (b.h / 2 : Nat) - (he / 2 : Nat)
    w := we
    h := he }

/-- `Bullet.update`: while exploding, advance `explosion_timer` and every 5th
tick advance `explosion_index`, killing the sprite once the index passes the
3 explosion frames; otherwise move by `speed`, cycle the 2-frame animation,
and trigger the explosion when `rect.bottom < 0 or rect.top > SCREEN_HEIGHT`. -/
def Bullet.update (we he : Nat) (b : Bullet) : Bullet :=
  if b.exploding then
    let t := b.explosion_timer + 1
    if t % 5 = 0 then
      let i := b.explosion_index + 1
      if i < 3 then
        { b with explosion_timer := t, explosion_index := i }
      else
        { b with explosion_timer := t, explosion_index := i, alive := false }
    else
      { b with explosion_timer := t }
  else
    let y1 := b.y + b.speed
    let b1 := { b with y := y1, image_index := (b.image_index + 1) % 2 }
    if y1 + (b1.h : Int) < 0 ∨ y1 > SCREEN_HEIGHT then
      Bullet.trigger_explosion we he b1
    else
      b1

/-- State of a `Wall` sprite (position is fixed and unused by the claims). -/
structure Wall where
  health : Int
  state_index : Nat
  alive : Bool
  deriving DecidableEq, Repr

/-- `Wall.__init__` (effective, second definition): `health = 25`,
`state_index = 0`. -/
def mkWall : Wall :=
  { health := 25, state_index := 0, alive := true }

/-- `Wall.take_damage`: decrement health; when `health <= 6` and
`state_index < 2` advance the visual state; when `health <= 0` kill. -/
def Wall.take_damage (wl : Wall) : Wall :=
  let h := wl.health - 1
  let wl1 :=
    if h ≤ 6 ∧ wl.state_index < 2 then
      { wl with health := h, state_index := wl.state_index + 1 }
    else
      { wl with health := h }
  if wl1.health ≤ 0 then { wl1 with alive := false } else wl1

/-- `Wall.reset` (effective, second definition): `health = 10`,
`state_index = 0`, base visual reloaded. -/
def Wall.reset (wl : Wall) : Wall :=
  { wl with health := 10, state_index := 0 }

/-- Operations an external caller can perform on a `Wall`. -/
inductive WOp where
  | damage
  | reset
  deriving DecidableEq, Repr

/-- One caller operation on a `Wall`. -/
def Wall.step (wl : Wall) : WOp → Wall
  | WOp.damage => wl.take_damage
  | WOp.reset => wl.reset

/-- A fresh `Wall` after a sequence of caller operations. -/
def runWall (ops : List WOp) : Wall :=
  ops.foldl Wall.step mkWall

/-- State of a `Player` sprite: rect and lives (key bindings and colors are
irrelevant to the claims; key presses are passed to `update` as booleans). -/
structure Player where
  x : Int
  y : Int
  w : Nat
  h : Nat
  lives : Int
  speed : Int
  deriving DecidableEq, Repr

/-- `Player.__init__(screen_width, screen_height, ...)`: `lives = 3`,
`speed = 5`, rect centered at `(screen_width // 2, screen_height - 50)`
(player image size `w × h`); Python `//` is floor division. -/
def mkPlayer (screen_width screen_height : Int) (w h : Nat) : Player :=
  { x := Int.fdiv screen_width 2 - (w / 2 : Nat)
    y := (screen_height - 50) - (h / 2 : Nat)
    w := w
    h := h
    lives := 3
    speed := 5 }

/-- `Player.update(keys)`: move by `-speed` when the left key is held and by
`+speed` when the right key is held, then clamp: `rect.left < 0` snaps to 0,
elif `rect.right > SCREEN_WIDTH` snaps the right edge to `SCREEN_WIDTH`. -/
def Player.update (p : Player) (left_held right_held : Bool) : Player :=
  let x1 := if left_held then p.x - p.speed else p.x
  let x2 := if right_held then x1 + p.speed else x1
  let x3 :=
    if x2 < 0 then 0
    else if x2 + (p.w : Int) > SCREEN_WIDTH then SCREEN_WIDTH - (p.w : Int)
    else x2
  { p with x := x3 }

/-- `Player.take_damage(amount)`: `lives = max(0, lives - amount)`. -/
def Player.take_damage (p : Player) (amount : Int) : Player :=
  { p with lives := max 0 (p.lives - amount) }

/-- `Player.heal` (first, shadowed Player class, lines 95-96):
`lives = max(0, lives == 3)`; the Python boolean compares as the integer 1
when true and 0 when false. -/
def Player.heal (p : Player) : Player :=
  { p with lives := max 0 (if p.lives = 3 then 1 else 0) }

/-- Operations an external caller can perform on a `Player`. -/
inductive POp where
  | update (left_held right_held : Bool)
  | damage (amount : Int)
  | heal
  deriving DecidableEq, Repr

/-- `true` unless the operation is a damage with negative amount. -/
def POp.nonneg : POp → Bool
  | POp.damage a => decide (0 ≤ a)
  | _ => true

/-- One caller operation on a `Player`. -/
def Player.step (p : Player) : POp → Player
  | POp.update l r => p.update l r
  | POp.damage a => p.take_damage a
  | POp.heal => p.heal

/-- A freshly constructed `Player` after a sequence of caller operations. -/
def runPlayer (screen_width screen_height : Int) (w h : Nat)
    (ops : List POp) : Player :=
  ops.foldl Player.step (mkPlayer screen_width screen_height w h)

/-- State of an `Enemy` sprite. -/
structure Enemy where
  x : Int
  y : Int
  w : Nat
  h : Nat
  health : Int
  speed : Int
  direction : Int
  can_shoot : Bool
  shooting_timer : Int
  shooting_cooldown : Int
  move_delay : Int
  current_frame : Int
  alive : Bool
  deriving DecidableEq, Repr

/-- `Enemy.__init__(x, y, image_path)`: rect centered at `(x, y)` (enemy image
size `w × h`), `health = 1`, `speed = 10`, `direction = 1`,
`can_shoot = True`, `shooting_timer = 10`, `shooting_cooldown = 1`,
`move_delay = 10`, `current_frame = 0`. -/
def mkEnemy (x y : Int) (w h : Nat) : Enemy :=
  { x := x - (w / 2 : Nat)
    y := y - (h / 2 : Nat)
    w := w
    h := h
    health := 1
    speed := 10
    direction := 1
    can_shoot := true
    shooting_timer := 10
    shooting_cooldown := 1
    move_delay := 10
    current_frame := 0
    alive := true }

/-- `Enemy.update`: advance the frame counter; once it reaches `move_delay`,
move horizontally by `speed * direction`, and if the moved rect touches a
screen edge (`rect.right >= SCREEN_WIDTH or rect.left <= 0`) negate the
direction and move down by 20; then run the shooting cooldown: while
`shooting_timer > 0` decrement it, otherwise set `can_shoot`. -/
def Enemy.update (e : Enemy) : Enemy :=
  let cf := e.current_frame + 1
  let e1 : Enemy :=
    if cf ≥ e.move_delay then
      let x1 := e.x + e.speed * e.direction
      if x1 + (e.w : Int) ≥ SCREEN_WIDTH ∨ x1 ≤ 0 then
        { e with x := x1, direction := -e.direction, y := e.y + 20,
                 current_frame := 0 }
      else
        { e with x := x1, current_frame := 0 }
    else
      { e with current_frame := cf }
  if e1.shooting_timer > 0 then
    { e1 with shooting_timer := e1.shooting_timer - 1 }
  else
    { e1 with can_shoot := true }

/-- `Enemy.shoot`: if `can_shoot`, clear it, set
`shooting_timer = shooting_cooldown` and return a new enemy bullet centered at
`(rect.centerx, rect.bottom)` (bullet image size `wb × hb`); otherwise return
`None`. -/
def Enemy.shoot (wb hb : Nat) (e : Enemy) : Option Bullet × Enemy :=
  if e.can_shoot then
    (some (mkBullet wb hb (e.x + (e.w / 2 : Nat)) (e.y + (e.h : Nat)) true),
     { e with can_shoot := false, shooting_timer := e.shooting_cooldown })
  else
    (none, e)

/-- The C8 scenario enemy: `rect.x = 0`, `direction = 1`, `speed = 10`,
`move_delay = 10`; the remaining fields as `Enemy.__init__` sets them, with
the 50 × 40 placeholder image size. -/
def enemyScenario : Enemy :=
  { x := 0
    y := 100
    w := 50
    h := 40
    health := 1
    speed := 10
    direction := 1
    can_shoot := true
    shooting_timer := 10
    shooting_cooldown := 1
    move_delay := 10
    current_frame := 0
    alive := true }

/-- Does this `Enemy.update` call perform a horizontal move that lands at or
beyond a screen edge (and hence flips the direction)? -/
def Enemy.flips (e : Enemy) : Bool :=
  decide (e.current_frame + 1 ≥ e.move_delay) &&
    (decide (e.x + e.speed * e.direction + (e.w : Int) ≥ SCREEN_WIDTH) ||
     decide (e.x + e.speed * e.direction ≤ 0))

/-- The triple of `Bullet` fields the exploding branch of `Bullet.update`
acts on: `(explosion_timer, explosion_index, alive)`. -/
def explTriple (b : Bullet) : Nat × Nat × Bool :=
  (b.explosion_timer, b.explosion_index, b.alive)

/-- The exploding branch of `Bullet.update` on the `explTriple` fields. -/
def explStep : Nat × Nat × Bool → Nat × Nat × Bool
  | (t, i, a) =>
    let t1 := t + 1
    if t1 % 5 = 0 then (t1, i + 1, if i + 1 < 3 then a else false)
    else (t1, i, a)

/-- The C1 counterexample bullet: a player bullet whose rect is 4 pixels tall
with its top edge at `y = 4`, so one update moves the top to `-1` while the
bottom stays at `3 ≥ 0`. -/
def bulletScenario : Bullet :=
  { is_enemy := false
    x := 100
    y := 4
    w := 4
    h := 4
    image_index := 0
    speed := -5
    exploding := false
    explosion_index := 0
    explosion_timer := 0
    alive := true }

/-- A bullet that has just entered the `Exploding` state via
`trigger_explosion` (with both explosion counters still zero). -/
def explodingBullet : Bullet :=
  Bullet.trigger_explosion 8 8 (mkBullet 4 4 100 (-3) false)

lemma Wall.take_damage_health (wl : Wall) :
    (Wall.take_damage wl).health = wl.health - 1 := by
  simp only [Wall.take_damage]
  split_ifs <;> rfl

lemma Wall.take_damage_state_index (wl : Wall) :
    (Wall.take_damage wl).state_index =
      if wl.health - 1 ≤ 6 ∧ wl.state_index < 2 then wl.state_index + 1
      else wl.state_index := by
  simp only [Wall.take_damage]
  split_ifs <;> rfl

lemma Wall.take_damage_alive (wl : Wall) :
    (Wall.take_damage wl).alive = (wl.alive && decide (0 < wl.health - 1)) := by
  simp only [Wall.take_damage]
  split_ifs with h1 h2 h3 <;> dsimp only at * <;>
    first
      | (have hP : (0 : Int) < wl.health - 1 := by omega
         simp [hP])
      | (have hP : ¬((0 : Int) < wl.health - 1) := by omega
         simp [hP])

lemma Wall.take_damage_iter (n : Nat) :
    (Wall.take_damage^[n] mkWall).health = 25 - (n : Int) ∧
      (Wall.take_damage^[n] mkWall).alive = decide (n < 25) := by
  induction n with
  | zero => constructor <;> rfl
  | succ k ih =>
    obtain ⟨h1, h2⟩ := ih
    rw [Function.iterate_succ_apply', Wall.take_damage_health,
      Wall.take_damage_alive, h1, h2]
    refine ⟨by push_cast; ring, ?_⟩
    rw [← Bool.decide_and, decide_eq_decide]
    omega

/-- **C4** (code bug): the effective `Wall` constructor sets `health = 25`,
but `Wall.reset` — documented as "Resets the wall to its initial state" —
sets `health = 10`; `state_index` is correctly reset to 0.  Evaluated on a
fresh wall after one `take_damage`. -/
theorem wall_reset_constant_mismatch :
    mkWall.health = 25 ∧
      (Wall.reset (Wall.take_damage mkWall)).health = 10 ∧
      (Wall.reset (Wall.take_damage mkWall)).state_index = 0 ∧
      (10 : Int) ≠ 25 := by
  decide

set_option maxRecDepth 10000 in
/-- **C3** (counterexample): `take_damage` has no lower bound on health; 26
calls on a fresh wall leave `health = -1 < 0`, so health does go below 0. -/
theorem wall_health_goes_negative :
    (Wall.take_damage^[26] mkWall).health < 0 := by
  decide

/-- **C3** (amended): every `take_damage()` call decreases health by exactly
1 (with no lower bound, so health passes below 0 when calls continue after
destruction), and the wall is removed from the live set exactly on the call
where health first transitions to a value ≤ 0: from a fresh wall, after `n`
calls `health = 25 - n` and the wall is alive iff `n < 25`. -/
theorem wall_take_damage_spec (wl : Wall) (n : Nat) :
    (Wall.take_damage wl).health = wl.health - 1 ∧
      (Wall.take_damage wl).alive = (wl.alive && decide (0 < wl.health - 1)) ∧
      (Wall.take_damage^[n] mkWall).health = 25 - (n : Int) ∧
      (Wall.take_damage^[n] mkWall).alive = decide (n < 25) :=
  ⟨Wall.take_damage_health wl, Wall.take_damage_alive wl,
    (Wall.take_damage_iter n).1, (Wall.take_damage_iter n).2⟩

lemma runWall_aux_state_index (ops : List WOp) (wl : Wall)
    (h : wl.state_index ≤ 2) : (ops.foldl Wall.step wl).state_index ≤ 2 := by
  induction ops generalizing wl with
  | nil => exact h
  | cons op rest ih =>
    refine ih (Wall.step wl op) ?_
    cases op with
    | damage =>
      have hst := Wall.take_damage_state_index wl
      simp only [Wall.step]
      split_ifs at hst <;> omega
    | reset => exact Nat.zero_le 2

/-- **C9**: from a fresh wall, over every sequence of `take_damage`/`reset`
calls `state_index` stays in `[0, 2]`; each `take_damage` call never
decreases `state_index`, advances it by at most 1, and advances it exactly
when the decremented health is ≤ 6 and `state_index < 2`; `reset` sets it
to 0. -/
theorem wall_state_index_spec (ops : List WOp) (wl : Wall) :
    (runWall ops).state_index ≤ 2 ∧
      wl.state_index ≤ (Wall.take_damage wl).state_index ∧
      (Wall.take_damage wl).state_index ≤ wl.state_index + 1 ∧
      ((Wall.take_damage wl).state_index = wl.state_index + 1 ↔
        (wl.health - 1 ≤ 6 ∧ wl.state_index < 2)) ∧
      (Wall.reset wl).state_index = 0 := by
  have hstep := Wall.take_damage_state_index wl
  refine ⟨runWall_aux_state_index ops mkWall (by decide), ?_, ?_, ?_, rfl⟩
  · split_ifs at hstep <;> omega
  · split_ifs at hstep <;> omega
  · constructor
    · intro h
      by_contra hc
      rw [if_neg hc] at hstep
      omega
    · intro h
      rw [if_pos h] at hstep
      exact hstep

/-- **C6**: one `Player.update` call, whatever keys are held and wherever the
rect starts, leaves the rect inside `[0, SCREEN_WIDTH]` horizontally,
provided the player image is no wider than the screen. -/
theorem player_update_in_bounds (p : Player) (l r : Bool)
    (hw : (p.w : Int) ≤ SCREEN_WIDTH) :
    0 ≤ (p.update l r).x ∧
      (p.update l r).x + ((p.update l r).w : Int) ≤ SCREEN_WIDTH := by
  simp only [Player.update, SCREEN_WIDTH] at *
  split_ifs <;> omega

/-- Witness for `player_update_in_bounds` at a concrete player. -/
theorem player_update_in_bounds_witness :
    (((mkPlayer 800 600 26 16).w : Int) ≤ SCREEN_WIDTH ∧
      (0 ≤ ((mkPlayer 800 600 26 16).update true false).x ∧
        ((mkPlayer 800 600 26 16).update true false).x +
            (((mkPlayer 800 600 26 16).update true false).w : Int) ≤
          SCREEN_WIDTH)) :=
  ⟨by decide, player_update_in_bounds (mkPlayer 800 600 26 16) true false
    (by decide)⟩

lemma Player.step_lives_le (p : Player) (op : POp) (hop : op.nonneg = true)
    (h0 : 0 ≤ p.lives) :
    (Player.step p op).lives ≤ p.lives ∧ 0 ≤ (Player.step p op).lives := by
  cases op with
  | update l r => exact ⟨le_rfl, h0⟩
  | damage a =>
    simp only [POp.nonneg, decide_eq_true_eq] at hop
    simp only [Player.step, Player.take_damage]
    exact ⟨max_le h0 (by omega), le_max_left 0 _⟩
  | heal =>
    simp only [Player.step, Player.heal]
    split_ifs with h3
    · rw [h3]
      exact ⟨by decide, by decide⟩
    · simpa using h0

lemma runPlayer_aux_lives (ops : List POp) (p : Player)
    (hops : ∀ op ∈ ops, op.nonneg = true) (h : 0 ≤ p.lives ∧ p.lives ≤ 3) :
    0 ≤ (ops.foldl Player.step p).lives ∧
      (ops.foldl Player.step p).lives ≤ 3 := by
  induction ops generalizing p with
  | nil => exact ⟨h.1, h.2⟩
  | cons op rest ih =>
    have hop := hops op (List.mem_cons_self _ _)
    have hs := Player.step_lives_le p op hop h.1
    exact ih (Player.step p op) (fun o ho => hops o (List.mem_cons_of_mem _ ho))
      ⟨hs.2, le_trans hs.1 h.2⟩

/-- **C5**: over every interleaving of `update`, `take_damage` (with
nonnegative damage amounts) and `heal` from construction, `Player.lives`
stays in `[0, 3]`; moreover no operation ever increases `lives` (the
shadowed `heal` sets `lives` to 1 or 0, never above the current value), so in
particular it never increases except possibly by a heal-to-full operation. -/
theorem player_lives_invariant (sw sh : Int) (w h : Nat) (ops : List POp)
    (hops : ∀ op ∈ ops, op.nonneg = true) :
    (0 ≤ (runPlayer sw sh w h ops).lives ∧
        (runPlayer sw sh w h ops).lives ≤ 3) ∧
      ∀ (p : Player) (op : POp), op.nonneg = true → 0 ≤ p.lives →
        (Player.step p op).lives ≤ p.lives :=
  ⟨runPlayer_aux_lives ops (mkPlayer sw sh w h) hops ⟨by simp [mkPlayer], by simp [mkPlayer]⟩,
    fun p op hop h0 => (Player.step_lives_le p op hop h0).1⟩

/-- Witness for `player_lives_invariant` at a concrete operation sequence. -/
theorem player_lives_invariant_witness :
    (∀ op ∈ [POp.damage 2, POp.heal, POp.update true false, POp.damage 1],
        op.nonneg = true) ∧
      (0 ≤ (runPlayer 800 600 26 16
            [POp.damage 2, POp.heal, POp.update true false,
              POp.damage 1]).lives ∧
        (runPlayer 800 600 26 16
            [POp.damage 2, POp.heal, POp.update true false,
              POp.damage 1]).lives ≤ 3) :=
  ⟨by decide,
    (player_lives_invariant 800 600 26 16
      [POp.damage 2, POp.heal, POp.update true false, POp.damage 1]
      (by decide)).1⟩

/-- **C10**: the `Player` constructor's `screen_width`/`screen_height`
arguments determine only the initial rect center `(screen_width // 2,
screen_height - 50)` (every other field is a constant or the image size),
while `Player.update` clamps against the module constant
`SCREEN_WIDTH = 800`: a player constructed with `screen_width = 2000` still
ends one update with its right edge at most 800. -/
theorem player_clamp_uses_module_constant (sw sh : Int) (w h : Nat)
    (l r : Bool) (hw : (w : Int) ≤ 800) :
    ((mkPlayer sw sh w h).x + ((w / 2 : Nat) : Int) = Int.fdiv sw 2) ∧
      ((mkPlayer sw sh w h).y + ((h / 2 : Nat) : Int) = sh - 50) ∧
      (mkPlayer sw sh w h).lives = 3 ∧
      (mkPlayer sw sh w h).speed = 5 ∧
      (mkPlayer sw sh w h).w = w ∧
      (mkPlayer sw sh w h).h = h ∧
      SCREEN_WIDTH = 800 ∧
      ((mkPlayer 2000 600 w h).update l r).x + (w : Int) ≤ 800 := by
  refine ⟨by simp [mkPlayer], by simp [mkPlayer], rfl, rfl, rfl, rfl, rfl, ?_⟩
  have h1000 : Int.fdiv 2000 2 = 1000 := by decide
  simp only [Player.update, mkPlayer, SCREEN_WIDTH, h1000]
  split_ifs <;> omega

/-- Witness for `player_clamp_uses_module_constant` at a concrete size. -/
theorem player_clamp_uses_module_constant_witness :
    ((100 : Nat) : Int) ≤ 800 ∧
      ((mkPlayer 2000 600 100 20).update false true).x + ((100 : Nat) : Int) ≤
        800 :=
  ⟨by decide,
    (player_clamp_uses_module_constant 123 456 100 20 false true
      (by decide)).2.2.2.2.2.2.2⟩

set_option maxRecDepth 10000 in
/-- **C8**: an `Enemy.update` call negates `direction` exactly when it
performs a horizontal move (frame counter reached `move_delay`) that lands
the rect at or beyond a screen edge (`rect.right ≥ SCREEN_WIDTH` or
`rect.left ≤ 0`), and exactly those calls add 20 to the vertical position;
the scenario enemy (`x = 0`, `direction = 1`, `speed = 10`,
`move_delay = 10`) has `x = 10` after 10 updates. -/
theorem enemy_direction_flip (e : Enemy) :
    ((Enemy.update e).direction =
        if e.flips then -e.direction else e.direction) ∧
      ((Enemy.update e).y = if e.flips then e.y + 20 else e.y) ∧
      (Enemy.update^[10] enemyScenario).x = 10 := by
  refine ⟨?_, ?_, by decide⟩ <;>
    · simp only [Enemy.update, Enemy.flips, Bool.and_eq_true, Bool.or_eq_true,
        decide_eq_true_eq]
      split_ifs <;> (try dsimp only) <;> first | rfl | tauto

/-- **C7**: `Enemy.shoot` produces a bullet exactly when `can_shoot` holds;
the bullet is enemy-owned (downward speed 5) and centered at the enemy's
bottom-center, and the enemy's `can_shoot` is cleared with
`shooting_timer` reset to `shooting_cooldown` — so a second immediate
`shoot` produces nothing; with `can_shoot` false, `shoot` changes nothing
and produces nothing. -/
theorem enemy_shoot_spec (wb hb : Nat) (e : Enemy) :
    (∀ b : Bullet, (Enemy.shoot wb hb e).1 = some b →
        b.is_enemy = true ∧ b.speed = 5 ∧
        b.x + ((b.w / 2 : Nat) : Int) = e.x + ((e.w / 2 : Nat) : Int) ∧
        b.y + ((b.h / 2 : Nat) : Int) = e.y + (e.h : Int)) ∧
      ((Enemy.shoot wb hb e).1.isSome ↔ e.can_shoot = true) ∧
      (e.can_shoot = true →
        (Enemy.shoot wb hb e).2.can_shoot = false ∧
          (Enemy.shoot wb hb e).2.shooting_timer = e.shooting_cooldown ∧
          (Enemy.shoot wb hb (Enemy.shoot wb hb e).2).1 = none) ∧
      (e.can_shoot = false → Enemy.shoot wb hb e = (none, e)) := by
  by_cases hcs : e.can_shoot = true
  · refine ⟨?_, ?_, ?_, ?_⟩
    · intro b hsome
      simp only [Enemy.shoot, hcs, if_true] at hsome
      rw [Option.some_inj] at hsome
      subst hsome
      refine ⟨rfl, rfl, ?_, ?_⟩ <;> simp only [mkBullet] <;> omega
    · simp [Enemy.shoot, hcs]
    · intro _
      refine ⟨?_, ?_, ?_⟩ <;> simp [Enemy.shoot, hcs]
    · intro hf
      rw [hf] at hcs
      exact absurd hcs (by decide)
  · simp only [Bool.not_eq_true] at hcs
    simp [Enemy.shoot, hcs]

/-- Witness for `enemy_shoot_spec` at a concrete enemy: a fresh enemy can
shoot, and immediately after shooting a second `shoot` yields nothing. -/
theorem enemy_shoot_spec_witness :
    (mkEnemy 400 100 50 40).can_shoot = true ∧
      (Enemy.shoot 6 12 (Enemy.shoot 6 12 (mkEnemy 400 100 50 40)).2).1 =
        none :=
  ⟨rfl, ((enemy_shoot_spec 6 12 (mkEnemy 400 100 50 40)).2.2.1 rfl).2.2⟩

lemma Bullet.update_exploding_absorbing (we he : Nat) (b : Bullet)
    (hx : b.exploding = true) :
    (Bullet.update we he b).exploding = true := by
  simp only [Bullet.update, hx, if_true]
  split_ifs <;> rfl

lemma Bullet.iterate_exploding_absorbing (we he : Nat) (b : Bullet)
    (hx : b.exploding = true) (n : Nat) :
    ((Bullet.update we he)^[n] b).exploding = true := by
  induction n with
  | zero => exact hx
  | succ k ih =>
    rw [Function.iterate_succ_apply']
    exact Bullet.update_exploding_absorbing we he _ ih

/-- **C1** (counterexample): a 4-pixel-tall player bullet whose top edge is
at `y = 4` moves to top `= -1` (so its position has exited the top bound in
the claim's sense, `rect.top < 0`), yet after that update it is still not
exploding, because the code only triggers on `rect.bottom < 0` (here the
bottom is still at 3). -/
theorem bullet_trigger_condition_counterexample :
    (Bullet.update 8 8 bulletScenario).y < 0 ∧
      (Bullet.update 8 8 bulletScenario).exploding = false := by
  decide

/-- **C1** (amended): the Flying→Exploding transition happens exactly once,
triggered exactly when the moved rect has fully exited the vertical screen
bounds (`rect.bottom < 0` or `rect.top > SCREEN_HEIGHT`), and once the
bullet is Exploding it never returns to Flying (over any number of further
updates). -/
theorem bullet_flying_to_exploding (we he : Nat) (b : Bullet) (n : Nat) :
    (b.exploding = true → ((Bullet.update we he)^[n] b).exploding = true) ∧
      (b.exploding = false →
        ((Bullet.update we he b).exploding = true ↔
          (b.y + b.speed + (b.h : Int) < 0 ∨
            b.y + b.speed > SCREEN_HEIGHT))) := by
  constructor
  · intro hx
    exact Bullet.iterate_exploding_absorbing we he b hx n
  · intro hx
    simp only [Bullet.update, hx, Bool.false_eq_true, if_false]
    split_ifs with hc
    · simpa [Bullet.trigger_explosion] using hc
    · simpa [hx] using hc

/-- Witness for `bullet_flying_to_exploding`: an exploding bullet is still
exploding four updates later. -/
theorem bullet_flying_to_exploding_witness :
    ((Bullet.update 8 8)^[4] explodingBullet).exploding = true :=
  (bullet_flying_to_exploding 8 8 explodingBullet 4).1 rfl

lemma Bullet.update_expl_step (we he : Nat) (b : Bullet)
    (hx : b.exploding = true) :
    Bullet.update we he b =
      { b with
        explosion_timer := (explStep (explTriple b)).1
        explosion_index := (explStep (explTriple b)).2.1
        alive := (explStep (explTriple b)).2.2 } := by
  simp only [Bullet.update, hx, if_true, explStep, explTriple]
  split_ifs <;> rfl

lemma Bullet.update_expl_iter (we he : Nat) (b : Bullet)
    (hx : b.exploding = true) (k : Nat) :
    (Bullet.update we he)^[k] b =
      { b with
        explosion_timer := (explStep^[k] (explTriple b)).1
        explosion_index := (explStep^[k] (explTriple b)).2.1
        alive := (explStep^[k] (explTriple b)).2.2 } := by
  induction k with
  | zero => rfl
  | succ k ih =>
    rw [Function.iterate_succ_apply',
      Bullet.update_expl_step we he _
        (Bullet.iterate_exploding_absorbing we he b hx k), ih]
    conv_rhs => rw [Function.iterate_succ_apply']
    rfl

/-- **C2**: a bullet that has just entered the Exploding state (exploding,
both explosion counters zero, still alive) is killed by exactly the 15th
`update` call, and is still alive after any shorter run of updates. -/
theorem bullet_explosion_lifetime (we he : Nat) (b : Bullet)
    (hx : b.exploding = true) (ht : b.explosion_timer = 0)
    (hi : b.explosion_index = 0) (ha : b.alive = true) :
    ((Bullet.update we he)^[15] b).alive = false ∧
      ∀ k, k < 15 → ((Bullet.update we he)^[k] b).alive = true := by
  have hT : explTriple b = (0, 0, true) := by simp [explTriple, ht, hi, ha]
  have H : ∀ k, k < 15 →
      (explStep^[k] ((0, 0, true) : Nat × Nat × Bool)).2.2 = true := by decide
  constructor
  · rw [Bullet.update_expl_iter we he b hx 15]
    dsimp only
    rw [hT]
    decide
  · intro k hk
    rw [Bullet.update_expl_iter we he b hx k]
    dsimp only
    rw [hT]
    exact H k hk

/-- Witness for `bullet_explosion_lifetime` at a concrete fresh explosion:
dead after 15 updates, still alive after 14. -/
theorem bullet_explosion_lifetime_witness :
    ((Bullet.update 8 8)^[15] explodingBullet).alive = false ∧
      ((Bullet.update 8 8)^[14] explodingBullet).alive = true := by
  have h := bullet_explosion_lifetime 8 8 explodingBullet rfl rfl rfl rfl
  exact ⟨h.1, h.2 14 (by omega)⟩

end SpaceInvaders
